import Mathlib

/-!
# Shallow embedding of `CleanupPreviousUpdateAction`

This file embeds `src/aosp/cleanup_previous_update_action.cc` from the
`system_update_engine` repository.  The C++ class is a single-threaded,
timer-driven state machine.  Each C++ member function that runs as a unit
(either a scheduled callback or a direct call) is embedded as a pure Lean
function from an environment (the responses of the external services it
consults: snapshot service, boot control, prefs, system properties) and the
mutable instance state to a new instance state together with a trace of
observable effects (external service calls, scheduling, completion, the
fatal abort).

Direct tail calls between member functions are embedded as direct calls,
except for the mutual cycle `WaitForMergeOrSchedule` ↔
`InitiateMergeAndWait`, which is broken with an explicit continuation
marker (`Cont`): in the source both calls are in tail position, so a
function's returned continuation records exactly which handler the C++
code would enter next.

Machine doubles (the merge percentage) are modelled as rationals; the
C++ `static_cast<unsigned int>` of a non-negative percentage is its floor.
-/

namespace CleanupPreviousUpdate

/-- `android::snapshot::UpdateState` (closed protobuf enumeration).
Numeric values: None = 0, Initiated = 1, Unverified = 2, Merging = 3,
MergeNeedsReboot = 4, MergeCompleted = 5, MergeFailed = 6, Cancelled = 7. -/
inductive UpdateState where
  | None
  | Initiated
  | Unverified
  | Merging
  | MergeNeedsReboot
  | MergeCompleted
  | MergeFailed
  | Cancelled
deriving DecidableEq, Repr

/-- Decode the raw numeric value returned by the snapshot service.  Values
other than 0..7 are reserved/unrecognized and decode to `none`
(the `default:` case of the C++ switch). -/
def UpdateState.ofRaw? (n : Nat) : Option UpdateState :=
  if n = 0 then some UpdateState.None
  else if n = 1 then some UpdateState.Initiated
  else if n = 2 then some UpdateState.Unverified
  else if n = 3 then some UpdateState.Merging
  else if n = 4 then some UpdateState.MergeNeedsReboot
  else if n = 5 then some UpdateState.MergeCompleted
  else if n = 6 then some UpdateState.MergeFailed
  else if n = 7 then some UpdateState.Cancelled
  else none

/-- The error codes this action reports to the `ActionProcessor`
(`ErrorCode::kSuccess`, `ErrorCode::kError`, `ErrorCode::kDeviceCorrupted`). -/
inductive ErrorCode where
  | kSuccess
  | kError
  | kDeviceCorrupted
deriving DecidableEq, Repr

/-- `android::snapshot::CreateResult` returned by
`RecoveryCreateSnapshotDevices`; `other` stands for any value outside the
three named ones (handled by the C++ `default:` together with `ERROR`). -/
inductive CreateResult where
  | CREATED
  | NOT_CREATED
  | ERROR
  | other
deriving DecidableEq, Repr

/-- Which delayed callback a `PostTask` call installs. -/
inductive TaskKind where
  | waitBootCompleted
  | waitMarkBootSuccessful
  | startMerge
  | waitForMerge
deriving DecidableEq, Repr

/-- Observable effects of one handler run: calls into the external
services, stats-recorder writes, task scheduling, action completion and
the `LOG(FATAL)` process abort. -/
inductive Effect where
  | ensureMetadataMounted
  | recoveryCreateSnapshotDevices
  | scheduleTask (kind : TaskKind) (delaySeconds : Nat)
  | completeAction (code : ErrorCode)
  | fatalAbort (raw : Nat)
  | markSlotUnbootable (slot : Nat)
  | setBootCompleteTimeMs
  | setMergeStatsFeatures
  | setMergeFailureCode (code : Nat)
  | setState (raw : Nat)
  | statsStart
  | updateCowStats
  | setBootCompleteToMergeStartTimeMs
  | setSourceBuildFingerprint
  | writeState
  | cancelUpdate
  | delegateProgress (fraction : ℚ)
  | logMergePercent (percent : Nat)
deriving DecidableEq, Repr

/-- The mutable state of one `CleanupPreviousUpdateAction` instance:
`running_`, `cancel_failed_`, `last_percentage_`, whether
`metadata_device_` holds a mounted handle, and whether `scheduled_task_`
currently tracks an outstanding task. -/
structure ActionState where
  running : Bool
  cancel_failed : Bool
  last_percentage : Nat
  metadata_device : Bool
  scheduled : Bool
deriving DecidableEq, Repr

/-- One invocation of the pre-cancellation validation callback, as seen
from the callback: whether `DeltaPerformer::ResetUpdateProgress`
succeeded, and the value read for `kPrefsDynamicPartitionMetadataUpdated`
(empty string when absent or unreadable). -/
structure BeforeCancelCall where
  resetUpdateProgressOk : Bool
  prefVal : String
deriving DecidableEq, Repr

/-- Responses of all external collaborators consulted during one handler
run.  `readMergeFailureCode1` is the read at the top of
`WaitForMergeOrSchedule`, `readMergeFailureCode2` the read inside the
`MergeFailed` branch (the service is read twice there).
`MergeFailureCode::Ok` is the numeric value 0. -/
structure Env where
  isRecovery : Bool
  virtualAbEnabled : Bool
  bootCompleted : Bool
  slotMarkedSuccessful : Bool
  currentSlot : Nat
  snapshotManagerNeeded : Bool
  mergeDelayProp : Int
  postTaskOk : Bool
  mountOk : Bool
  createResult : CreateResult
  statsStartOk : Bool
  processUpdateStateRaw : Nat
  progressCalls : List ℚ
  beforeCancelRuns : List BeforeCancelCall
  hasDelegate : Bool
  readMergeFailureCode1 : Nat
  readMergeFailureCode2 : Nat
  cancelUpdateOk : Bool
  gsidImageRunning : Bool
  writeStateOk : Bool
  initiateMergeOk : Bool
  getUpdateStateRaw : Nat
deriving Repr

/-- Continuation marker breaking the mutual tail-call cycle between
`WaitForMergeOrSchedule` and `InitiateMergeAndWait`.  `halt` means the
C++ function returned without tail-calling into that cycle. -/
inductive Cont where
  | halt
  | initiateMergeAndWait
  | waitForMergeOrSchedule
deriving DecidableEq, Repr

/-- The C++ `static_cast<unsigned int>` applied to the (non-negative)
merge percentage: truncation toward zero, i.e. the floor of the rational.
Written over the normalized numerator/denominator pair so that it
evaluates by kernel reduction. -/
def truncToUInt (p : ℚ) : Nat := p.num.toNat / p.den

/-- `CleanupPreviousUpdateAction::OnMergePercentageUpdate` (lines
392–410).  `p` is the percentage written by `GetUpdateState(&percentage)`.
The delegate, when present, receives `percentage / 100`; a log line is
emitted only when `last_percentage_ < static_cast<unsigned int>(percentage)`,
and `last_percentage_` is then assigned the truncated percentage.  The
callback always returns `false`. -/
def OnMergePercentageUpdate (hasDelegate : Bool) (p : ℚ) (s : ActionState) :
    ActionState × List Effect × Bool :=
  let d : List Effect := if hasDelegate then [Effect.delegateProgress (p / 100)] else []
  let intp : Nat := truncToUInt p
  if s.last_percentage < intp then
    ({ s with last_percentage := intp }, d ++ [Effect.logMergePercent intp], false)
  else
    (s, d, false)

/-- `CleanupPreviousUpdateAction::BeforeCancel` (lines 412–435).  Returns
the new state and the boolean handed back to the snapshot service:
`true` when `ResetUpdateProgress` succeeded, `true` when it failed but the
guarded preference value is empty, and `false` (setting `cancel_failed_`)
when it failed and the value is non-empty. -/
def BeforeCancel (c : BeforeCancelCall) (s : ActionState) : ActionState × Bool :=
  if c.resetUpdateProgressOk then
    (s, true)
  else if c.prefVal = "" then
    (s, true)
  else
    ({ s with cancel_failed := true }, false)

/-- The boolean `BeforeCancel` returns for a given call; it does not
depend on the instance state. -/
def beforeCancelApproves (c : BeforeCancelCall) : Bool :=
  c.resetUpdateProgressOk || c.prefVal == ""

/-- The sequence of progress-callback invocations libsnapshot makes
inside one `ProcessUpdateState` call, folded over the instance state;
collects their effects in order. -/
def runProgressCalls (hasDelegate : Bool) (ps : List ℚ) (s : ActionState) :
    ActionState × List Effect :=
  match ps with
  | [] => (s, [])
  | p :: rest =>
      let r := OnMergePercentageUpdate hasDelegate p s
      let r2 := runProgressCalls hasDelegate rest r.1
      (r2.1, r.2.1 ++ r2.2)

/-- The sequence of pre-cancellation validation invocations libsnapshot
makes inside one `ProcessUpdateState` call, folded over the instance
state (the callback has no observable effects beyond the state). -/
def runBeforeCancelCalls (cs : List BeforeCancelCall) (s : ActionState) : ActionState :=
  match cs with
  | [] => s
  | c :: rest => runBeforeCancelCalls rest (BeforeCancel c s).1

/-- `CleanupPreviousUpdateAction::CheckTaskScheduled` (lines 122–130):
after a failed `PostTask`, complete with `kError` when no task is
tracked as scheduled; otherwise only log. -/
def CheckTaskScheduled (s : ActionState) : List Effect :=
  if s.scheduled then [] else [Effect.completeAction ErrorCode.kError]

/-- `scheduled_task_.PostTask(...)`: on success the handle tracks the new
task; on failure nothing is scheduled.  Returns the new state and the
schedule effect (emitted only on success). -/
def postTask (env : Env) (kind : TaskKind) (delaySeconds : Nat) (s : ActionState) :
    ActionState × List Effect :=
  if env.postTaskOk then
    ({ s with scheduled := true }, [Effect.scheduleTask kind delaySeconds])
  else
    ({ s with scheduled := false }, [])

/-- `CleanupPreviousUpdateAction::ScheduleWaitBootCompleted` (lines
167–176): `TEST_AND_RETURN(running_)`, then `PostTask` of
`WaitBootCompletedOrSchedule` after 2 seconds; on failure
`CheckTaskScheduled`. -/
def ScheduleWaitBootCompleted (env : Env) (s : ActionState) : ActionState × List Effect :=
  if s.running then
    let r := postTask env TaskKind.waitBootCompleted 2 s
    if env.postTaskOk then r else (r.1, r.2 ++ CheckTaskScheduled r.1)
  else
    (s, [])

/-- `CleanupPreviousUpdateAction::ScheduleWaitMarkBootSuccessful` (lines
196–206): like `ScheduleWaitBootCompleted` but for
`CheckSlotMarkedSuccessfulOrSchedule`, 2-second interval. -/
def ScheduleWaitMarkBootSuccessful (env : Env) (s : ActionState) : ActionState × List Effect :=
  if s.running then
    let r := postTask env TaskKind.waitMarkBootSuccessful 2 s
    if env.postTaskOk then r else (r.1, r.2 ++ CheckTaskScheduled r.1)
  else
    (s, [])

/-- `CleanupPreviousUpdateAction::ScheduleWaitForMerge` (lines 296–305):
like the above for `WaitForMergeOrSchedule`, 2-second interval. -/
def ScheduleWaitForMerge (env : Env) (s : ActionState) : ActionState × List Effect :=
  if s.running then
    let r := postTask env TaskKind.waitForMerge 2 s
    if env.postTaskOk then r else (r.1, r.2 ++ CheckTaskScheduled r.1)
  else
    (s, [])

/-- The effects emitted at the top of `WaitForMergeOrSchedule` (lines
311–319): `SetMergeStatsFeatures`, then `set_merge_failure_code` guarded
by the freshly read code differing from `MergeFailureCode::Ok` (0). -/
def waitForMergePreEffects (env : Env) : List Effect :=
  Effect.setMergeStatsFeatures ::
    (if env.readMergeFailureCode1 ≠ 0 then
      [Effect.setMergeFailureCode env.readMergeFailureCode1]
    else [])

/-- The `switch (state)` of `WaitForMergeOrSchedule` (lines 326–389),
applied to the instance state after the `ProcessUpdateState` callbacks
have run.  The `default:` case is the `LOG(FATAL)` process abort. -/
def waitForMergeDispatch (env : Env) (s : ActionState) : ActionState × List Effect × Cont :=
  match UpdateState.ofRaw? env.processUpdateStateRaw with
  | some UpdateState.None =>
      (s, [Effect.cancelUpdate,
           Effect.completeAction
             (if env.cancelUpdateOk then ErrorCode.kSuccess else ErrorCode.kError)],
       Cont.halt)
  | some UpdateState.Initiated =>
      (s, [Effect.completeAction ErrorCode.kSuccess], Cont.halt)
  | some UpdateState.Unverified =>
      (s, [], Cont.initiateMergeAndWait)
  | some UpdateState.Merging =>
      let r := ScheduleWaitForMerge env s
      (r.1, r.2, Cont.halt)
  | some UpdateState.MergeNeedsReboot =>
      (s, [Effect.completeAction ErrorCode.kError], Cont.halt)
  | some UpdateState.MergeCompleted =>
      (s, [Effect.markSlotUnbootable (1 - env.currentSlot),
           Effect.completeAction ErrorCode.kSuccess], Cont.halt)
  | some UpdateState.MergeFailed =>
      (s, [Effect.setMergeFailureCode env.readMergeFailureCode2,
           Effect.completeAction ErrorCode.kDeviceCorrupted], Cont.halt)
  | some UpdateState.Cancelled =>
      (s, [Effect.completeAction
             (if s.cancel_failed then ErrorCode.kError else ErrorCode.kSuccess)],
       Cont.halt)
  | none =>
      (s, [Effect.fatalAbort env.processUpdateStateRaw], Cont.halt)

/-- `CleanupPreviousUpdateAction::WaitForMergeOrSchedule` (lines
307–390): `TEST_AND_RETURN(running_)`; forward feature flags; guarded
failure-code write; `ProcessUpdateState` (during which libsnapshot runs
the progress and pre-cancellation callbacks); `set_state`; dispatch on
the returned state. -/
def WaitForMergeOrSchedule (env : Env) (s : ActionState) : ActionState × List Effect × Cont :=
  if s.running then
    let pr := runProgressCalls env.hasDelegate env.progressCalls s
    let s2 := runBeforeCancelCalls env.beforeCancelRuns pr.1
    let d := waitForMergeDispatch env s2
    (d.1,
     waitForMergePreEffects env ++ pr.2 ++
       [Effect.setState env.processUpdateStateRaw] ++ d.2.1,
     d.2.2)
  else
    (s, [], Cont.halt)

/-- `CleanupPreviousUpdateAction::InitiateMergeAndWait` (lines 437–493):
`TEST_AND_RETURN(running_)`; refuse under a running DSU image
(complete `kError`); record COW stats, latency, fingerprint; `WriteState`
(best effort); `InitiateMerge`.  On success re-enter
`WaitForMergeOrSchedule`; on failure re-read `GetUpdateState`, record it,
complete `kSuccess` when still `Unverified` (raw 2), otherwise re-enter
`WaitForMergeOrSchedule`. -/
def InitiateMergeAndWait (env : Env) (s : ActionState) : ActionState × List Effect × Cont :=
  if s.running then
    if env.gsidImageRunning then
      (s, [Effect.completeAction ErrorCode.kError], Cont.halt)
    else
      let pre : List Effect :=
        [Effect.updateCowStats, Effect.setBootCompleteToMergeStartTimeMs,
         Effect.setSourceBuildFingerprint, Effect.writeState]
      if env.initiateMergeOk then
        (s, pre, Cont.waitForMergeOrSchedule)
      else
        let pre2 := pre ++ [Effect.setState env.getUpdateStateRaw]
        if env.getUpdateStateRaw = 2 then
          (s, pre2 ++ [Effect.completeAction ErrorCode.kSuccess], Cont.halt)
        else
          (s, pre2, Cont.waitForMergeOrSchedule)
  else
    (s, [], Cont.halt)

/-- The part of `CleanupPreviousUpdateAction::StartMerge` (lines 256–293)
that runs once the metadata volume is known to be mounted: in recovery,
`RecoveryCreateSnapshotDevices` with `CREATED`/`NOT_CREATED` proceeding
and anything else completing `kError`; then `merge_stats_->Start()`
(failure only logged) and a direct tail call into
`WaitForMergeOrSchedule`.  `mountEffs` is the effect of the lazy mount
that may have just happened. -/
def startMergeMounted (env : Env) (mountEffs : List Effect) (s1 : ActionState) :
    ActionState × List Effect × Cont :=
  if env.isRecovery then
    match env.createResult with
    | CreateResult.CREATED =>
        let r := WaitForMergeOrSchedule env s1
        (r.1,
         mountEffs ++ [Effect.recoveryCreateSnapshotDevices, Effect.statsStart] ++ r.2.1,
         r.2.2)
    | CreateResult.NOT_CREATED =>
        let r := WaitForMergeOrSchedule env s1
        (r.1,
         mountEffs ++ [Effect.recoveryCreateSnapshotDevices, Effect.statsStart] ++ r.2.1,
         r.2.2)
    | _ =>
        (s1,
         mountEffs ++ [Effect.recoveryCreateSnapshotDevices,
                       Effect.completeAction ErrorCode.kError],
         Cont.halt)
  else
    let r := WaitForMergeOrSchedule env s1
    (r.1, mountEffs ++ [Effect.statsStart] ++ r.2.1, r.2.2)

/-- `CleanupPreviousUpdateAction::StartMerge` (lines 242–294).  Note: the
source has no `TEST_AND_RETURN(running_)` here, so the function runs in
full even when the instance has been suspended.  Lazily mounts the
metadata volume when no handle is held (`metadata_device_ == nullptr`);
when the handle is still null afterwards, completes with `kSuccess` in
recovery and `kError` otherwise; otherwise proceeds via
`startMergeMounted`. -/
def StartMerge (env : Env) (s : ActionState) : ActionState × List Effect × Cont :=
  if s.metadata_device then
    startMergeMounted env [] s
  else if env.mountOk then
    startMergeMounted env [Effect.ensureMetadataMounted] { s with metadata_device := true }
  else
    (s,
     [Effect.ensureMetadataMounted,
      Effect.completeAction (if env.isRecovery then ErrorCode.kSuccess else ErrorCode.kError)],
     Cont.halt)

/-- `CleanupPreviousUpdateAction::CheckForMergeDelay` (lines 208–229):
when `IsSnapshotManagerNeeded()` is false, call `StartMerge` directly;
otherwise clamp `ro.virtual_ab.merge_delay_seconds` to [0, 600] and
`PostTask` a delayed `StartMerge`; on posting failure complete `kError`
directly (no `CheckTaskScheduled` here). -/
def CheckForMergeDelay (env : Env) (s : ActionState) : ActionState × List Effect × Cont :=
  if env.snapshotManagerNeeded = false then
    StartMerge env s
  else
    let delay : Nat := (min (max env.mergeDelayProp 0) 600).toNat
    if env.postTaskOk then
      let r := postTask env TaskKind.startMerge delay s
      (r.1, r.2, Cont.halt)
    else
      ({ s with scheduled := false }, [Effect.completeAction ErrorCode.kError], Cont.halt)

/-- `CleanupPreviousUpdateAction::CheckSlotMarkedSuccessfulOrSchedule`
(lines 231–240): `TEST_AND_RETURN(running_)`; outside recovery, when the
current slot is not marked successful, reschedule itself; otherwise fall
through to `CheckForMergeDelay`. -/
def CheckSlotMarkedSuccessfulOrSchedule (env : Env) (s : ActionState) :
    ActionState × List Effect × Cont :=
  if s.running then
    if !env.isRecovery && !env.slotMarkedSuccessful then
      let r := ScheduleWaitMarkBootSuccessful env s
      (r.1, r.2, Cont.halt)
    else
      CheckForMergeDelay env s
  else
    (s, [], Cont.halt)

/-- `CleanupPreviousUpdateAction::WaitBootCompletedOrSchedule` (lines
178–194): `TEST_AND_RETURN(running_)`; outside recovery, when
`sys.boot_completed` is not set, reschedule itself; otherwise record the
boot-complete time and fall through to
`CheckSlotMarkedSuccessfulOrSchedule`. -/
def WaitBootCompletedOrSchedule (env : Env) (s : ActionState) :
    ActionState × List Effect × Cont :=
  if s.running then
    if !env.isRecovery && !env.bootCompleted then
      let r := ScheduleWaitBootCompleted env s
      (r.1, r.2, Cont.halt)
    else
      let r := CheckSlotMarkedSuccessfulOrSchedule env s
      (r.1, Effect.setBootCompleteTimeMs :: r.2.1, r.2.2)
  else
    (s, [], Cont.halt)

/-- `CleanupPreviousUpdateAction::StartActionInternal` (lines 147–165):
set `running_`; on a non-virtual-A/B device complete `kSuccess`
immediately; otherwise obtain the stats recorder and enter
`WaitBootCompletedOrSchedule`. -/
def StartActionInternal (env : Env) (s : ActionState) : ActionState × List Effect × Cont :=
  let s1 := { s with running := true }
  if env.virtualAbEnabled = false then
    (s1, [Effect.completeAction ErrorCode.kSuccess], Cont.halt)
  else
    WaitBootCompletedOrSchedule env s1

/-- `CleanupPreviousUpdateAction::StopActionInternal` (lines 132–145):
clear `running_` and cancel any outstanding task (tracking is cleared
even when best-effort cancellation fails). -/
def StopActionInternal (s : ActionState) : ActionState :=
  { s with running := false, scheduled := false }

/-- The error codes of the `processor_->ActionComplete` calls in an
effect trace, in order. -/
def completions (effs : List Effect) : List ErrorCode :=
  effs.filterMap fun e =>
    match e with
    | Effect.completeAction c => some c
    | _ => none

/-- The number of `PostTask` calls that successfully installed a new
delayed task in an effect trace. -/
def scheduleCount (effs : List Effect) : Nat :=
  (effs.filter fun e =>
    match e with
    | Effect.scheduleTask _ _ => true
    | _ => false).length

/-- The slots passed to `MarkSlotUnbootable` in an effect trace, in
order. -/
def marksUnbootable (effs : List Effect) : List Nat :=
  effs.filterMap fun e =>
    match e with
    | Effect.markSlotUnbootable n => some n
    | _ => none

/-- The values passed to `set_merge_failure_code` in an effect trace, in
order. -/
def failureCodeWrites (effs : List Effect) : List Nat :=
  effs.filterMap fun e =>
    match e with
    | Effect.setMergeFailureCode c => some c
    | _ => none

/-- The stats recorder's `merge_failure_code` field after replaying an
effect trace over a prior field value. -/
def applyMergeFailureCode (effs : List Effect) (fc : Option Nat) : Option Nat :=
  effs.foldl
    (fun acc e =>
      match e with
      | Effect.setMergeFailureCode c => some c
      | _ => acc)
    fc

/-- `t` agrees with `s` on every instance field except possibly
`last_percentage`. -/
def agreesExceptLast (s t : ActionState) : Prop :=
  t.running = s.running ∧ t.cancel_failed = s.cancel_failed ∧
  t.metadata_device = s.metadata_device ∧ t.scheduled = s.scheduled

theorem agreesExceptLast_refl (s : ActionState) : agreesExceptLast s s :=
  ⟨rfl, rfl, rfl, rfl⟩

theorem agreesExceptLast_trans {s t u : ActionState}
    (h1 : agreesExceptLast s t) (h2 : agreesExceptLast t u) :
    agreesExceptLast s u :=
  ⟨h2.1.trans h1.1, h2.2.1.trans h1.2.1, h2.2.2.1.trans h1.2.2.1, h2.2.2.2.trans h1.2.2.2⟩

/-- The progress callback touches only `last_percentage`. -/
theorem OnMergePercentageUpdate_state (d : Bool) (p : ℚ) (s : ActionState) :
    agreesExceptLast s (OnMergePercentageUpdate d p s).1 := by
  unfold OnMergePercentageUpdate
  dsimp only
  split <;> exact ⟨rfl, rfl, rfl, rfl⟩

/-- Every effect of the progress callback is a delegate notification or a
log line. -/
theorem OnMergePercentageUpdate_effects (d : Bool) (p : ℚ) (s : ActionState) :
    ∀ e ∈ (OnMergePercentageUpdate d p s).2.1,
      (∃ q, e = Effect.delegateProgress q) ∨ ∃ n, e = Effect.logMergePercent n := by
  intro e he
  unfold OnMergePercentageUpdate at he
  dsimp only at he
  split at he <;> split at he <;>
    simp only [List.mem_append, List.mem_singleton, List.not_mem_nil, List.nil_append,
      or_false, false_or] at he <;>
    first
      | exact Or.inl ⟨_, he⟩
      | exact Or.inr ⟨_, he⟩
      | (rcases he with he | he
         · exact Or.inl ⟨_, he⟩
         · exact Or.inr ⟨_, he⟩)

/-- A run of progress callbacks touches only `last_percentage`. -/
theorem runProgressCalls_state (d : Bool) (ps : List ℚ) (s : ActionState) :
    agreesExceptLast s (runProgressCalls d ps s).1 := by
  induction ps generalizing s with
  | nil => exact agreesExceptLast_refl s
  | cons p rest ih =>
      exact agreesExceptLast_trans (OnMergePercentageUpdate_state d p s)
        (ih (OnMergePercentageUpdate d p s).1)

/-- Every effect of a run of progress callbacks is a delegate
notification or a log line. -/
theorem runProgressCalls_effects (d : Bool) (ps : List ℚ) (s : ActionState) :
    ∀ e ∈ (runProgressCalls d ps s).2,
      (∃ q, e = Effect.delegateProgress q) ∨ ∃ n, e = Effect.logMergePercent n := by
  induction ps generalizing s with
  | nil => intro e he; simp [runProgressCalls] at he
  | cons p rest ih =>
      intro e he
      unfold runProgressCalls at he
      simp only [List.mem_append] at he
      rcases he with he | he
      · exact OnMergePercentageUpdate_effects d p s e he
      · exact ih _ e he

/-- `BeforeCancel` touches only `cancel_failed`, setting it exactly when
the call does not approve cancellation; its returned boolean is
`beforeCancelApproves`. -/
theorem BeforeCancel_state (c : BeforeCancelCall) (s : ActionState) :
    (BeforeCancel c s).1.running = s.running ∧
    (BeforeCancel c s).1.last_percentage = s.last_percentage ∧
    (BeforeCancel c s).1.metadata_device = s.metadata_device ∧
    (BeforeCancel c s).1.scheduled = s.scheduled ∧
    (BeforeCancel c s).1.cancel_failed = (s.cancel_failed || !(beforeCancelApproves c)) ∧
    (BeforeCancel c s).2 = beforeCancelApproves c := by
  unfold BeforeCancel beforeCancelApproves
  rcases c with ⟨r, v⟩
  by_cases hr : r = true
  · subst hr; simp
  · rw [Bool.not_eq_true] at hr
    subst hr
    by_cases hv : v = ""
    · simp [hv]
    · simp [hv]

/-- A run of pre-cancellation callbacks leaves every field but
`cancel_failed` unchanged, and `cancel_failed` ends up set exactly when
it was already set or some run refused to approve. -/
theorem runBeforeCancelCalls_state (cs : List BeforeCancelCall) (s : ActionState) :
    (runBeforeCancelCalls cs s).running = s.running ∧
    (runBeforeCancelCalls cs s).last_percentage = s.last_percentage ∧
    (runBeforeCancelCalls cs s).metadata_device = s.metadata_device ∧
    (runBeforeCancelCalls cs s).scheduled = s.scheduled ∧
    (runBeforeCancelCalls cs s).cancel_failed =
      (s.cancel_failed || cs.any fun c => !(beforeCancelApproves c)) := by
  induction cs generalizing s with
  | nil => simp [runBeforeCancelCalls]
  | cons c rest ih =>
      have hb := BeforeCancel_state c s
      have hr := ih (BeforeCancel c s).1
      refine ⟨hr.1.trans hb.1, hr.2.1.trans hb.2.1, hr.2.2.1.trans hb.2.2.1,
        hr.2.2.2.1.trans hb.2.2.2.1, ?_⟩
      show (runBeforeCancelCalls rest (BeforeCancel c s).1).cancel_failed = _
      rw [hr.2.2.2.2, hb.2.2.2.2.1]
      simp [List.any_cons, Bool.or_assoc]

/-- A run of progress callbacks performs no action completion. -/
theorem completions_progress (d : Bool) (ps : List ℚ) (s : ActionState) :
    completions (runProgressCalls d ps s).2 = [] := by
  rw [completions, List.filterMap_eq_nil_iff]
  intro e he
  rcases runProgressCalls_effects d ps s e he with ⟨q, rfl⟩ | ⟨n, rfl⟩ <;> rfl

/-- A run of progress callbacks writes no merge failure code. -/
theorem failureCodeWrites_progress (d : Bool) (ps : List ℚ) (s : ActionState) :
    failureCodeWrites (runProgressCalls d ps s).2 = [] := by
  rw [failureCodeWrites, List.filterMap_eq_nil_iff]
  intro e he
  rcases runProgressCalls_effects d ps s e he with ⟨q, rfl⟩ | ⟨n, rfl⟩ <;> rfl

/-- A run of progress callbacks marks no slot unbootable. -/
theorem marksUnbootable_progress (d : Bool) (ps : List ℚ) (s : ActionState) :
    marksUnbootable (runProgressCalls d ps s).2 = [] := by
  rw [marksUnbootable, List.filterMap_eq_nil_iff]
  intro e he
  rcases runProgressCalls_effects d ps s e he with ⟨q, rfl⟩ | ⟨n, rfl⟩ <;> rfl

/-- A run of progress callbacks schedules no task. -/
theorem scheduleCount_progress (d : Bool) (ps : List ℚ) (s : ActionState) :
    scheduleCount (runProgressCalls d ps s).2 = 0 := by
  rw [scheduleCount, List.length_eq_zero, List.filter_eq_nil_iff]
  intro e he
  rcases runProgressCalls_effects d ps s e he with ⟨q, rfl⟩ | ⟨n, rfl⟩ <;> simp

/-- The top-of-handler effects of `WaitForMergeOrSchedule` perform no
completion. -/
theorem completions_pre (env : Env) : completions (waitForMergePreEffects env) = [] := by
  unfold waitForMergePreEffects completions
  split <;> rfl

/-- The top-of-handler effects schedule no task. -/
theorem scheduleCount_pre (env : Env) : scheduleCount (waitForMergePreEffects env) = 0 := by
  unfold waitForMergePreEffects scheduleCount
  split <;> rfl

/-- The top-of-handler effects mark no slot unbootable. -/
theorem marksUnbootable_pre (env : Env) : marksUnbootable (waitForMergePreEffects env) = [] := by
  unfold waitForMergePreEffects marksUnbootable
  split <;> rfl

/-- The top-of-handler effects write the freshly read failure code
exactly when it differs from `Ok`. -/
theorem failureCodeWrites_pre (env : Env) :
    failureCodeWrites (waitForMergePreEffects env) =
      if env.readMergeFailureCode1 ≠ 0 then [env.readMergeFailureCode1] else [] := by
  unfold waitForMergePreEffects failureCodeWrites
  split <;> simp_all [List.filterMap]

/-- Replaying a trace without failure-code writes leaves the recorded
field unchanged. -/
theorem applyMergeFailureCode_of_no_writes {effs : List Effect}
    (h : failureCodeWrites effs = []) (fc : Option Nat) :
    applyMergeFailureCode effs fc = fc := by
  induction effs generalizing fc with
  | nil => rfl
  | cons e rest ih =>
      unfold failureCodeWrites at h ih
      rw [List.filterMap_cons] at h
      unfold applyMergeFailureCode at ih ⊢
      rw [List.foldl_cons]
      cases e <;> simp_all

/-- `applyMergeFailureCode` distributes over trace concatenation. -/
theorem applyMergeFailureCode_append (a b : List Effect) (fc : Option Nat) :
    applyMergeFailureCode (a ++ b) fc = applyMergeFailureCode b (applyMergeFailureCode a fc) := by
  unfold applyMergeFailureCode
  exact List.foldl_append _ _ a b

theorem completions_append (a b : List Effect) :
    completions (a ++ b) = completions a ++ completions b :=
  List.filterMap_append a b _

theorem scheduleCount_append (a b : List Effect) :
    scheduleCount (a ++ b) = scheduleCount a + scheduleCount b := by
  unfold scheduleCount
  rw [List.filter_append, List.length_append]

theorem marksUnbootable_append (a b : List Effect) :
    marksUnbootable (a ++ b) = marksUnbootable a ++ marksUnbootable b :=
  List.filterMap_append a b _

theorem failureCodeWrites_append (a b : List Effect) :
    failureCodeWrites (a ++ b) = failureCodeWrites a ++ failureCodeWrites b :=
  List.filterMap_append a b _

/-- `t` agrees with `s` on every instance field except possibly
`scheduled`. -/
def agreesExceptSched (s t : ActionState) : Prop :=
  t.running = s.running ∧ t.cancel_failed = s.cancel_failed ∧
  t.last_percentage = s.last_percentage ∧ t.metadata_device = s.metadata_device

theorem postTask_state (env : Env) (k : TaskKind) (dl : Nat) (s : ActionState) :
    agreesExceptSched s (postTask env k dl s).1 := by
  unfold postTask
  split <;> exact ⟨rfl, rfl, rfl, rfl⟩

theorem ScheduleWaitForMerge_state (env : Env) (s : ActionState) :
    agreesExceptSched s (ScheduleWaitForMerge env s).1 := by
  unfold ScheduleWaitForMerge
  split
  · split
    · exact postTask_state env _ _ s
    · exact postTask_state env _ _ s
  · exact ⟨rfl, rfl, rfl, rfl⟩

theorem ScheduleWaitBootCompleted_state (env : Env) (s : ActionState) :
    agreesExceptSched s (ScheduleWaitBootCompleted env s).1 := by
  unfold ScheduleWaitBootCompleted
  split
  · split
    · exact postTask_state env _ _ s
    · exact postTask_state env _ _ s
  · exact ⟨rfl, rfl, rfl, rfl⟩

theorem ScheduleWaitMarkBootSuccessful_state (env : Env) (s : ActionState) :
    agreesExceptSched s (ScheduleWaitMarkBootSuccessful env s).1 := by
  unfold ScheduleWaitMarkBootSuccessful
  split
  · split
    · exact postTask_state env _ _ s
    · exact postTask_state env _ _ s
  · exact ⟨rfl, rfl, rfl, rfl⟩

/-- The switch of `WaitForMergeOrSchedule` never changes `cancel_failed`. -/
theorem waitForMergeDispatch_cancel (env : Env) (s : ActionState) :
    (waitForMergeDispatch env s).1.cancel_failed = s.cancel_failed := by
  unfold waitForMergeDispatch
  rcases UpdateState.ofRaw? env.processUpdateStateRaw with _ | u
  · rfl
  · cases u
    case Merging => exact (ScheduleWaitForMerge_state env s).2.1
    all_goals rfl

/-- `WaitForMergeOrSchedule` never clears `cancel_failed`. -/
theorem WaitForMergeOrSchedule_cancel_mono (env : Env) (s : ActionState)
    (h : s.cancel_failed = true) :
    (WaitForMergeOrSchedule env s).1.cancel_failed = true := by
  unfold WaitForMergeOrSchedule
  split
  · dsimp only
    rw [waitForMergeDispatch_cancel,
      (runBeforeCancelCalls_state _ _).2.2.2.2,
      (runProgressCalls_state _ _ _).2.1, h, Bool.true_or]
  · exact h

/-- `startMergeMounted` never clears `cancel_failed`. -/
theorem startMergeMounted_cancel_mono (env : Env) (mountEffs : List Effect)
    (s1 : ActionState) (h : s1.cancel_failed = true) :
    (startMergeMounted env mountEffs s1).1.cancel_failed = true := by
  unfold startMergeMounted
  split
  · rcases env.createResult <;> dsimp only <;>
      first
        | exact WaitForMergeOrSchedule_cancel_mono env _ h
        | exact h
  · exact WaitForMergeOrSchedule_cancel_mono env _ h

/-- `StartMerge` never clears `cancel_failed`. -/
theorem StartMerge_cancel_mono (env : Env) (s : ActionState)
    (h : s.cancel_failed = true) :
    (StartMerge env s).1.cancel_failed = true := by
  unfold StartMerge
  split
  · exact startMergeMounted_cancel_mono env _ _ h
  · split
    · exact startMergeMounted_cancel_mono env _ _ h
    · exact h

/-- `CheckForMergeDelay` never clears `cancel_failed`. -/
theorem CheckForMergeDelay_cancel_mono (env : Env) (s : ActionState)
    (h : s.cancel_failed = true) :
    (CheckForMergeDelay env s).1.cancel_failed = true := by
  unfold CheckForMergeDelay
  split
  · exact StartMerge_cancel_mono env s h
  · dsimp only
    split
    · rw [(postTask_state env _ _ s).2.1]; exact h
    · exact h

/-- `CheckSlotMarkedSuccessfulOrSchedule` never clears `cancel_failed`. -/
theorem CheckSlot_cancel_mono (env : Env) (s : ActionState)
    (h : s.cancel_failed = true) :
    (CheckSlotMarkedSuccessfulOrSchedule env s).1.cancel_failed = true := by
  unfold CheckSlotMarkedSuccessfulOrSchedule
  split
  · split
    · rw [(ScheduleWaitMarkBootSuccessful_state env s).2.1]; exact h
    · exact CheckForMergeDelay_cancel_mono env s h
  · exact h

/-- `WaitBootCompletedOrSchedule` never clears `cancel_failed`. -/
theorem WaitBoot_cancel_mono (env : Env) (s : ActionState)
    (h : s.cancel_failed = true) :
    (WaitBootCompletedOrSchedule env s).1.cancel_failed = true := by
  unfold WaitBootCompletedOrSchedule
  split
  · split
    · rw [(ScheduleWaitBootCompleted_state env s).2.1]; exact h
    · exact CheckSlot_cancel_mono env s h
  · exact h

/-- `StartActionInternal` never clears `cancel_failed`. -/
theorem StartActionInternal_cancel_mono (env : Env) (s : ActionState)
    (h : s.cancel_failed = true) :
    (StartActionInternal env s).1.cancel_failed = true := by
  unfold StartActionInternal
  split
  · exact h
  · exact WaitBoot_cancel_mono env _ h

/-- `InitiateMergeAndWait` never clears `cancel_failed`. -/
theorem InitiateMergeAndWait_cancel_mono (env : Env) (s : ActionState)
    (h : s.cancel_failed = true) :
    (InitiateMergeAndWait env s).1.cancel_failed = true := by
  unfold InitiateMergeAndWait
  split <;> [skip; exact h]
  split <;> [exact h; skip]
  dsimp only
  split <;> [exact h; skip]
  split <;> exact h

/-- A fresh running instance state, as after `StartActionInternal` on a
new instance. -/
def sRun : ActionState :=
  { running := true, cancel_failed := false, last_percentage := 0,
    metadata_device := false, scheduled := false }

/-- A suspended instance state: `StopActionInternal` has run on a fresh
instance (e.g. `SuspendAction`), so `running_` is false and the pending
task was cancelled. -/
def sSusp : ActionState :=
  { running := false, cancel_failed := false, last_percentage := 0,
    metadata_device := false, scheduled := false }

/-- A baseline environment: normal boot, virtual A/B enabled, all
service calls succeeding, snapshot service reporting `Merging` (3). -/
def baseEnv : Env :=
  { isRecovery := false, virtualAbEnabled := true, bootCompleted := true,
    slotMarkedSuccessful := true, currentSlot := 0, snapshotManagerNeeded := true,
    mergeDelayProp := 0, postTaskOk := true, mountOk := true,
    createResult := CreateResult.NOT_CREATED, statsStartOk := true,
    processUpdateStateRaw := 3, progressCalls := [], beforeCancelRuns := [],
    hasDelegate := true, readMergeFailureCode1 := 0, readMergeFailureCode2 := 0,
    cancelUpdateOk := true, gsidImageRunning := false, writeStateOk := true,
    initiateMergeOk := true, getUpdateStateRaw := 2 }

/-- C1: whenever `processUpdateState` returns a value outside the eight
recognized `UpdateState` members, the running `WaitForMergeOrSchedule`
handler reaches the fatal `LOG(FATAL)` process abort, performs no
`ActionComplete` call with `Error` or any other code, and chains into no
further handler. -/
theorem C1_unrecognized_state_aborts (env : Env) (s : ActionState)
    (hrun : s.running = true)
    (hraw : UpdateState.ofRaw? env.processUpdateStateRaw = none) :
    Effect.fatalAbort env.processUpdateStateRaw ∈ (WaitForMergeOrSchedule env s).2.1 ∧
    completions (WaitForMergeOrSchedule env s).2.1 = [] ∧
    (WaitForMergeOrSchedule env s).2.2 = Cont.halt := by
  unfold WaitForMergeOrSchedule
  rw [if_pos hrun]
  dsimp only
  unfold waitForMergeDispatch
  rw [hraw]
  dsimp only
  refine ⟨by simp, ?_, rfl⟩
  rw [completions_append, completions_append, completions_append,
    completions_pre, completions_progress]
  rfl

/-- Witness for C1: the reserved value 8 while running. -/
theorem C1_unrecognized_state_aborts_witness :
    (sRun.running = true ∧
     UpdateState.ofRaw? ({ baseEnv with processUpdateStateRaw := 8 } : Env).processUpdateStateRaw
       = none) ∧
    (Effect.fatalAbort ({ baseEnv with processUpdateStateRaw := 8 } : Env).processUpdateStateRaw
       ∈ (WaitForMergeOrSchedule { baseEnv with processUpdateStateRaw := 8 } sRun).2.1 ∧
     completions (WaitForMergeOrSchedule { baseEnv with processUpdateStateRaw := 8 } sRun).2.1
       = [] ∧
     (WaitForMergeOrSchedule { baseEnv with processUpdateStateRaw := 8 } sRun).2.2 = Cont.halt) :=
  ⟨⟨rfl, by decide⟩,
   C1_unrecognized_state_aborts { baseEnv with processUpdateStateRaw := 8 } sRun rfl (by decide)⟩

/-- C2 (code-bug exhibit): the delayed merge-start callback `StartMerge`
has no `running_` guard, unlike every other scheduled callback.  Fired
after suspension (`running_ = false`) it still mounts the metadata
volume, and on mount failure in a normal boot it even completes the
action with `kError`; on mount success it writes to the stats recorder
(`merge_stats_->Start()`) and mutates `metadata_device_`. -/
theorem C2_startMerge_ignores_suspension :
    (completions (StartMerge { baseEnv with mountOk := false } sSusp).2.1
        = [ErrorCode.kError] ∧
     Effect.ensureMetadataMounted ∈ (StartMerge { baseEnv with mountOk := false } sSusp).2.1) ∧
    (Effect.ensureMetadataMounted ∈ (StartMerge baseEnv sSusp).2.1 ∧
     Effect.statsStart ∈ (StartMerge baseEnv sSusp).2.1 ∧
     (StartMerge baseEnv sSusp).1.metadata_device = true) := by
  decide

/-- C3: when `processUpdateState` reports `Cancelled` (7) on a running
instance with no earlier cancellation failure, the action completes with
`Success` when every pre-cancellation validation run of this entry
approved, and with `Error` when some run refused (progress reset failed
and the guarded preference value was non-empty); and `cancel_failed_`,
once set, is preserved by every modelled transition of the instance. -/
theorem C3_cancelled_completion (env : Env) (s : ActionState)
    (hrun : s.running = true) (hcf : s.cancel_failed = false)
    (hraw : env.processUpdateStateRaw = 7) :
    (((∀ c ∈ env.beforeCancelRuns, beforeCancelApproves c = true) →
        completions (WaitForMergeOrSchedule env s).2.1 = [ErrorCode.kSuccess]) ∧
     ((∃ c ∈ env.beforeCancelRuns, beforeCancelApproves c = false) →
        completions (WaitForMergeOrSchedule env s).2.1 = [ErrorCode.kError])) ∧
    (∀ (env' : Env) (s' : ActionState), s'.cancel_failed = true →
      (∀ c, (BeforeCancel c s').1.cancel_failed = true) ∧
      (∀ (d : Bool) (p : ℚ), (OnMergePercentageUpdate d p s').1.cancel_failed = true) ∧
      (StopActionInternal s').cancel_failed = true ∧
      (StartActionInternal env' s').1.cancel_failed = true ∧
      (WaitBootCompletedOrSchedule env' s').1.cancel_failed = true ∧
      (CheckSlotMarkedSuccessfulOrSchedule env' s').1.cancel_failed = true ∧
      (CheckForMergeDelay env' s').1.cancel_failed = true ∧
      (StartMerge env' s').1.cancel_failed = true ∧
      (WaitForMergeOrSchedule env' s').1.cancel_failed = true ∧
      (InitiateMergeAndWait env' s').1.cancel_failed = true) := by
  have hres : (WaitForMergeOrSchedule env s).2.1 =
      waitForMergePreEffects env ++
        (runProgressCalls env.hasDelegate env.progressCalls s).2 ++
        [Effect.setState env.processUpdateStateRaw] ++
        [Effect.completeAction
          (if (runBeforeCancelCalls env.beforeCancelRuns
                (runProgressCalls env.hasDelegate env.progressCalls s).1).cancel_failed
           then ErrorCode.kError else ErrorCode.kSuccess)] := by
    unfold WaitForMergeOrSchedule
    rw [if_pos hrun]
    dsimp only
    unfold waitForMergeDispatch
    rw [hraw]
    rfl
  have hc2 : (runBeforeCancelCalls env.beforeCancelRuns
      (runProgressCalls env.hasDelegate env.progressCalls s).1).cancel_failed
      = env.beforeCancelRuns.any (fun c => !(beforeCancelApproves c)) := by
    rw [(runBeforeCancelCalls_state _ _).2.2.2.2, (runProgressCalls_state _ _ _).2.1, hcf,
      Bool.false_or]
  have hcompl : ∀ b : Bool,
      (runBeforeCancelCalls env.beforeCancelRuns
        (runProgressCalls env.hasDelegate env.progressCalls s).1).cancel_failed = b →
      completions (WaitForMergeOrSchedule env s).2.1 =
        [if b then ErrorCode.kError else ErrorCode.kSuccess] := by
    intro b hb
    rw [hres, completions_append, completions_append, completions_append,
      completions_pre, completions_progress, hb]
    rfl
  refine ⟨⟨?_, ?_⟩, ?_⟩
  · intro hall
    have : env.beforeCancelRuns.any (fun c => !(beforeCancelApproves c)) = false := by
      simp only [List.any_eq_false, Bool.not_eq_true']
      intro c hc
      simpa using hall c hc
    simpa using hcompl false (hc2.trans this)
  · intro hex
    have : env.beforeCancelRuns.any (fun c => !(beforeCancelApproves c)) = true := by
      rcases hex with ⟨c, hc, hcf2⟩
      simp only [List.any_eq_true]
      exact ⟨c, hc, by simp [hcf2]⟩
    simpa using hcompl true (hc2.trans this)
  · intro env' s' h'
    refine ⟨?_, ?_, h', StartActionInternal_cancel_mono env' s' h',
      WaitBoot_cancel_mono env' s' h', CheckSlot_cancel_mono env' s' h',
      CheckForMergeDelay_cancel_mono env' s' h', StartMerge_cancel_mono env' s' h',
      WaitForMergeOrSchedule_cancel_mono env' s' h', InitiateMergeAndWait_cancel_mono env' s' h'⟩
    · intro c
      rw [(BeforeCancel_state c s').2.2.2.2.1, h', Bool.true_or]
    · intro d p
      rw [(OnMergePercentageUpdate_state d p s').2.1]
      exact h'

/-- The environment of the C3 witness: `Cancelled` (7) with a single
refusing validation run (reset failed, preference value `"u"`). -/
def envC3 : Env :=
  { baseEnv with processUpdateStateRaw := 7, beforeCancelRuns := [⟨false, "u"⟩] }

/-- Witness for C3: a single refusing validation run forces the
`Cancelled` completion to `kError`. -/
theorem C3_cancelled_completion_witness :
    (sRun.running = true ∧ sRun.cancel_failed = false ∧
     envC3.processUpdateStateRaw = 7) ∧
    completions (WaitForMergeOrSchedule envC3 sRun).2.1 = [ErrorCode.kError] :=
  ⟨⟨rfl, rfl, rfl⟩,
   (C3_cancelled_completion envC3 sRun rfl rfl rfl).1.2
     ⟨⟨false, "u"⟩, by simp [envC3, baseEnv], by decide⟩⟩

/-- A recovery environment in which the current slot is not marked
successful and no snapshot-manager monitoring is needed; the snapshot
service reports `Initiated` (1). -/
def envC4rec : Env :=
  { baseEnv with isRecovery := true, slotMarkedSuccessful := false,
                 snapshotManagerNeeded := false, processUpdateStateRaw := 1 }

/-- A normal-boot environment with `sys.boot_completed` unset and a
failing `PostTask`. -/
def envC4post : Env :=
  { baseEnv with bootCompleted := false, postTaskOk := false }

/-- C4 counterexample: the claim quantifies over every execution context,
but in recovery both polls skip their conditions, so a slot-verified poll
firing with the slot not marked successful proceeds all the way into the
merge stage (mounting metadata) and performs a completion while
scheduling no task; and outside recovery, when posting the retry task
fails, a failed boot poll schedules zero tasks and performs one `kError`
completion. -/
theorem C4_poll_claim_counterexample :
    (envC4rec.isRecovery = true ∧ envC4rec.slotMarkedSuccessful = false ∧
     sRun.running = true ∧
     Effect.ensureMetadataMounted ∈ (CheckSlotMarkedSuccessfulOrSchedule envC4rec sRun).2.1 ∧
     completions (CheckSlotMarkedSuccessfulOrSchedule envC4rec sRun).2.1 =
       [ErrorCode.kSuccess] ∧
     scheduleCount (CheckSlotMarkedSuccessfulOrSchedule envC4rec sRun).2.1 = 0) ∧
    (envC4post.isRecovery = false ∧ envC4post.bootCompleted = false ∧
     completions (WaitBootCompletedOrSchedule envC4post sRun).2.1 = [ErrorCode.kError] ∧
     scheduleCount (WaitBootCompletedOrSchedule envC4post sRun).2.1 = 0) := by
  decide

/-- C4 (amended): in a normal (non-recovery) boot context, when posting
the retry task succeeds, a firing of the boot-completed or slot-verified
poll while running whose polled condition is false only reschedules
itself: exactly one new task, zero completions, no progression to the
merge-delay or merge stages (the handler halts with the retry as its
only effect). -/
theorem C4_failed_poll_reschedules (env : Env) (s : ActionState)
    (hrun : s.running = true) (hrec : env.isRecovery = false)
    (hpost : env.postTaskOk = true) :
    (env.bootCompleted = false →
      WaitBootCompletedOrSchedule env s =
        ({ s with scheduled := true }, [Effect.scheduleTask TaskKind.waitBootCompleted 2],
         Cont.halt)) ∧
    (env.slotMarkedSuccessful = false →
      CheckSlotMarkedSuccessfulOrSchedule env s =
        ({ s with scheduled := true }, [Effect.scheduleTask TaskKind.waitMarkBootSuccessful 2],
         Cont.halt)) := by
  constructor
  · intro hb
    unfold WaitBootCompletedOrSchedule ScheduleWaitBootCompleted postTask
    rw [if_pos hrun, hrec, hb]
    simp [hrun, hpost]
  · intro hs
    unfold CheckSlotMarkedSuccessfulOrSchedule ScheduleWaitMarkBootSuccessful postTask
    rw [if_pos hrun, hrec, hs]
    simp [hrun, hpost]

/-- A normal-boot environment in which neither the boot-completed nor the
slot-verified condition holds yet. -/
def envC4w : Env :=
  { baseEnv with bootCompleted := false, slotMarkedSuccessful := false }

/-- Witness for C4 (amended): both polls, fired while running in a
normal boot with posting succeeding, only reschedule themselves. -/
theorem C4_failed_poll_reschedules_witness :
    (sRun.running = true ∧ envC4w.isRecovery = false ∧ envC4w.postTaskOk = true ∧
     envC4w.bootCompleted = false ∧ envC4w.slotMarkedSuccessful = false) ∧
    WaitBootCompletedOrSchedule envC4w sRun =
      ({ sRun with scheduled := true }, [Effect.scheduleTask TaskKind.waitBootCompleted 2],
       Cont.halt) ∧
    CheckSlotMarkedSuccessfulOrSchedule envC4w sRun =
      ({ sRun with scheduled := true }, [Effect.scheduleTask TaskKind.waitMarkBootSuccessful 2],
       Cont.halt) :=
  ⟨⟨rfl, rfl, rfl, rfl, rfl⟩,
   (C4_failed_poll_reschedules envC4w sRun rfl rfl rfl).1 rfl,
   (C4_failed_poll_reschedules envC4w sRun rfl rfl rfl).2 rfl⟩

/-- `10.2` as an explicitly normalized rational (`51/5`), so that the
embedding evaluates by kernel reduction. -/
def q102 : ℚ := ⟨51, 5, by decide, by decide⟩

/-- `10.9` as an explicitly normalized rational (`109/10`). -/
def q109 : ℚ := ⟨109, 10, by decide, by decide⟩

/-- `11.4` as an explicitly normalized rational (`57/5`). -/
def q114 : ℚ := ⟨57, 5, by decide, by decide⟩

/-- C5: a progress-callback invocation with percentage `p ∈ [0, 100]`
delivers exactly `p / 100` to the delegate when one is present (and a
delegate notification occurs only then); a log line is emitted exactly
when the truncated integer percentage strictly exceeds the last logged
value; the callback always returns `false` (do not keep waiting inline);
and the spec's example sequence 10.2, 10.9, 11.4 starting from last
percentage 10 produces exactly one log transition, at the third call. -/
theorem C5_progress_callback (d : Bool) (p : ℚ) (s : ActionState)
    (h0 : 0 ≤ p) (h100 : p ≤ 100) :
    ((OnMergePercentageUpdate true p s).2.1.head? =
        some (Effect.delegateProgress (p / 100)) ∧
     (∀ q, Effect.delegateProgress q ∈ (OnMergePercentageUpdate d p s).2.1 →
        d = true ∧ q = p / 100) ∧
     ((∃ n, Effect.logMergePercent n ∈ (OnMergePercentageUpdate d p s).2.1) ↔
        s.last_percentage < truncToUInt p) ∧
     (OnMergePercentageUpdate d p s).2.2 = false) ∧
    (q102 = 10.2 ∧ q109 = 10.9 ∧ q114 = 11.4) ∧
    runProgressCalls true [q102, q109, q114] { sRun with last_percentage := 10 } =
      ({ sRun with last_percentage := 11 },
       [Effect.delegateProgress (q102 / 100), Effect.delegateProgress (q109 / 100),
        Effect.delegateProgress (q114 / 100), Effect.logMergePercent 11]) := by
  refine ⟨⟨?_, ?_, ?_, ?_⟩, ⟨?_, ?_, ?_⟩, ?_⟩
  · unfold OnMergePercentageUpdate
    dsimp only
    split <;> rfl
  · intro q hq
    unfold OnMergePercentageUpdate at hq
    dsimp only at hq
    rcases hd : d <;> rw [hd] at hq <;>
      split at hq <;> simp_all
  · unfold OnMergePercentageUpdate
    dsimp only
    constructor
    · rintro ⟨n, hn⟩
      by_contra hlt
      rw [if_neg hlt] at hn
      rcases hd : d <;> rw [hd] at hn <;> simp_all
    · intro hlt
      rw [if_pos hlt]
      exact ⟨truncToUInt p, by simp⟩
  · unfold OnMergePercentageUpdate
    dsimp only
    split <;> rfl
  · unfold q102
    rw [Rat.mk'_eq_divInt, Rat.divInt_eq_div]
    norm_num
  · unfold q109
    rw [Rat.mk'_eq_divInt, Rat.divInt_eq_div]
    norm_num
  · unfold q114
    rw [Rat.mk'_eq_divInt, Rat.divInt_eq_div]
    norm_num
  · rfl

/-- Witness for C5: percentage 10 is within bounds; the callback returns
`false` there. -/
theorem C5_progress_callback_witness :
    ((0 : ℚ) ≤ 10 ∧ (10 : ℚ) ≤ 100) ∧
    (OnMergePercentageUpdate false 10 sRun).2.2 = false :=
  ⟨⟨by decide, by decide⟩,
   (C5_progress_callback false 10 sRun (by decide) (by decide)).1.2.2.2⟩

/-- C6: when no metadata handle is held and the ensure-metadata-mounted
call fails at merge start, the action completes with `kError` in a
normal boot and `kSuccess` in recovery; no task is scheduled by the
handler, no task remains tracked afterwards, and no further handler is
entered. -/
theorem C6_mount_failure (env : Env) (s : ActionState)
    (hmd : s.metadata_device = false) (hmount : env.mountOk = false)
    (hsched : s.scheduled = false) :
    completions (StartMerge env s).2.1 =
      [if env.isRecovery then ErrorCode.kSuccess else ErrorCode.kError] ∧
    scheduleCount (StartMerge env s).2.1 = 0 ∧
    (StartMerge env s).1.scheduled = false ∧
    (StartMerge env s).2.2 = Cont.halt := by
  have h : StartMerge env s =
      (s, [Effect.ensureMetadataMounted,
           Effect.completeAction
             (if env.isRecovery then ErrorCode.kSuccess else ErrorCode.kError)],
       Cont.halt) := by
    unfold StartMerge
    rw [hmd, hmount]
    rfl
  rw [h]
  exact ⟨rfl, rfl, hsched, rfl⟩

/-- Witness for C6: normal boot, failing mount, fresh running state. -/
theorem C6_mount_failure_witness :
    (sRun.metadata_device = false ∧
     ({ baseEnv with mountOk := false } : Env).mountOk = false ∧
     sRun.scheduled = false) ∧
    (completions (StartMerge { baseEnv with mountOk := false } sRun).2.1 =
      [if ({ baseEnv with mountOk := false } : Env).isRecovery
       then ErrorCode.kSuccess else ErrorCode.kError] ∧
     scheduleCount (StartMerge { baseEnv with mountOk := false } sRun).2.1 = 0 ∧
     (StartMerge { baseEnv with mountOk := false } sRun).1.scheduled = false ∧
     (StartMerge { baseEnv with mountOk := false } sRun).2.2 = Cont.halt) :=
  ⟨⟨rfl, rfl, rfl⟩,
   C6_mount_failure { baseEnv with mountOk := false } sRun rfl rfl rfl⟩

/-- C7: when `processUpdateState` reports `MergeCompleted` (5) on a
running instance, the inactive slot (1 minus the current slot index) is
marked unbootable exactly once and the action completes with
`kSuccess`.  (`hslot` confines the statement to the A/B slot domain
{0, 1}, where Lean's truncated subtraction agrees with the C++ unsigned
arithmetic.) -/
theorem C7_merge_completed (env : Env) (s : ActionState)
    (hrun : s.running = true) (hraw : env.processUpdateStateRaw = 5)
    (hslot : env.currentSlot ≤ 1) :
    marksUnbootable (WaitForMergeOrSchedule env s).2.1 = [1 - env.currentSlot] ∧
    completions (WaitForMergeOrSchedule env s).2.1 = [ErrorCode.kSuccess] := by
  have hres : (WaitForMergeOrSchedule env s).2.1 =
      waitForMergePreEffects env ++
        (runProgressCalls env.hasDelegate env.progressCalls s).2 ++
        [Effect.setState env.processUpdateStateRaw] ++
        [Effect.markSlotUnbootable (1 - env.currentSlot),
         Effect.completeAction ErrorCode.kSuccess] := by
    unfold WaitForMergeOrSchedule
    rw [if_pos hrun]
    dsimp only
    unfold waitForMergeDispatch
    rw [hraw]
    rfl
  constructor
  · rw [hres, marksUnbootable_append, marksUnbootable_append, marksUnbootable_append,
      marksUnbootable_pre, marksUnbootable_progress]
    rfl
  · rw [hres, completions_append, completions_append, completions_append,
      completions_pre, completions_progress]
    rfl

/-- Witness for C7: current slot 0, `MergeCompleted`; slot 1 is marked
unbootable once. -/
theorem C7_merge_completed_witness :
    (sRun.running = true ∧
     ({ baseEnv with processUpdateStateRaw := 5 } : Env).processUpdateStateRaw = 5 ∧
     ({ baseEnv with processUpdateStateRaw := 5 } : Env).currentSlot ≤ 1) ∧
    (marksUnbootable (WaitForMergeOrSchedule { baseEnv with processUpdateStateRaw := 5 } sRun).2.1
       = [1 - ({ baseEnv with processUpdateStateRaw := 5 } : Env).currentSlot] ∧
     completions (WaitForMergeOrSchedule { baseEnv with processUpdateStateRaw := 5 } sRun).2.1
       = [ErrorCode.kSuccess]) :=
  ⟨⟨rfl, rfl, by decide⟩,
   C7_merge_completed { baseEnv with processUpdateStateRaw := 5 } sRun rfl rfl (by decide)⟩

/-- C8: when `processUpdateState` reports `MergeFailed` (6) on a running
instance, the trace ends with the stats recorder's failure code being
set from the fresh in-branch read, immediately followed by the sole
completion, which is `kDeviceCorrupted`; replaying the trace leaves the
recorder's failure-code field equal to that fresh read. -/
theorem C8_merge_failed (env : Env) (s : ActionState)
    (hrun : s.running = true) (hraw : env.processUpdateStateRaw = 6) :
    (∃ pre, (WaitForMergeOrSchedule env s).2.1 =
        pre ++ [Effect.setMergeFailureCode env.readMergeFailureCode2,
                Effect.completeAction ErrorCode.kDeviceCorrupted]) ∧
    completions (WaitForMergeOrSchedule env s).2.1 = [ErrorCode.kDeviceCorrupted] ∧
    ∀ fc, applyMergeFailureCode (WaitForMergeOrSchedule env s).2.1 fc =
      some env.readMergeFailureCode2 := by
  have hres : (WaitForMergeOrSchedule env s).2.1 =
      (waitForMergePreEffects env ++
        (runProgressCalls env.hasDelegate env.progressCalls s).2 ++
        [Effect.setState env.processUpdateStateRaw]) ++
        [Effect.setMergeFailureCode env.readMergeFailureCode2,
         Effect.completeAction ErrorCode.kDeviceCorrupted] := by
    unfold WaitForMergeOrSchedule
    rw [if_pos hrun]
    dsimp only
    unfold waitForMergeDispatch
    rw [hraw]
    rfl
  refine ⟨⟨_, hres⟩, ?_, ?_⟩
  · rw [hres, completions_append, completions_append, completions_append,
      completions_pre, completions_progress]
    rfl
  · intro fc
    rw [hres, applyMergeFailureCode_append]
    rfl

/-- Witness for C8: `MergeFailed` with the branch read returning 5;
the recorder field ends as 5 and completion is `kDeviceCorrupted`. -/
theorem C8_merge_failed_witness :
    (sRun.running = true ∧
     ({ baseEnv with processUpdateStateRaw := 6, readMergeFailureCode2 := 5 } : Env).processUpdateStateRaw = 6) ∧
    (completions (WaitForMergeOrSchedule { baseEnv with processUpdateStateRaw := 6, readMergeFailureCode2 := 5 } sRun).2.1
       = [ErrorCode.kDeviceCorrupted] ∧
     applyMergeFailureCode (WaitForMergeOrSchedule { baseEnv with processUpdateStateRaw := 6, readMergeFailureCode2 := 5 } sRun).2.1 (some 0)
       = some 5) :=
  ⟨⟨rfl, rfl⟩,
   (C8_merge_failed { baseEnv with processUpdateStateRaw := 6, readMergeFailureCode2 := 5 } sRun rfl rfl).2.1,
   (C8_merge_failed { baseEnv with processUpdateStateRaw := 6, readMergeFailureCode2 := 5 } sRun rfl rfl).2.2 (some 0)⟩

/-- C9: in the initiate-merge step on a running instance with no DSU
image active, when `InitiateMerge` fails the handler re-reads
`GetUpdateState`; if the re-read is still `Unverified` (2) the action
completes with `kSuccess` and halts, and for any other observed value
the handler records it into the stats recorder (`set_state`), performs
no completion, and re-enters `WaitForMergeOrSchedule`. -/
theorem C9_initiate_merge_failure (env : Env) (s : ActionState)
    (hrun : s.running = true) (hgsid : env.gsidImageRunning = false)
    (hfail : env.initiateMergeOk = false) :
    (env.getUpdateStateRaw = 2 →
      completions (InitiateMergeAndWait env s).2.1 = [ErrorCode.kSuccess] ∧
      (InitiateMergeAndWait env s).2.2 = Cont.halt) ∧
    (env.getUpdateStateRaw ≠ 2 →
      Effect.setState env.getUpdateStateRaw ∈ (InitiateMergeAndWait env s).2.1 ∧
      completions (InitiateMergeAndWait env s).2.1 = [] ∧
      (InitiateMergeAndWait env s).2.2 = Cont.waitForMergeOrSchedule) := by
  have hgsid' : ¬(env.gsidImageRunning = true) := by simp [hgsid]
  have hfail' : ¬(env.initiateMergeOk = true) := by simp [hfail]
  unfold InitiateMergeAndWait
  rw [if_pos hrun, if_neg hgsid']
  dsimp only
  rw [if_neg hfail']
  constructor
  · intro h2
    rw [if_pos h2]
    exact ⟨rfl, rfl⟩
  · intro h2
    rw [if_neg h2]
    exact ⟨by simp, rfl, rfl⟩

/-- Witness for C9: both outcomes of the failed initiation, with re-read
`Unverified` (2) and re-read `Merging` (3). -/
theorem C9_initiate_merge_failure_witness :
    (sRun.running = true ∧
     ({ baseEnv with initiateMergeOk := false, getUpdateStateRaw := 2 } : Env).gsidImageRunning = false ∧
     ({ baseEnv with initiateMergeOk := false, getUpdateStateRaw := 2 } : Env).initiateMergeOk = false) ∧
    (completions (InitiateMergeAndWait { baseEnv with initiateMergeOk := false, getUpdateStateRaw := 2 } sRun).2.1
       = [ErrorCode.kSuccess] ∧
     (InitiateMergeAndWait { baseEnv with initiateMergeOk := false, getUpdateStateRaw := 2 } sRun).2.2 = Cont.halt) ∧
    (Effect.setState 3 ∈ (InitiateMergeAndWait { baseEnv with initiateMergeOk := false, getUpdateStateRaw := 3 } sRun).2.1 ∧
     completions (InitiateMergeAndWait { baseEnv with initiateMergeOk := false, getUpdateStateRaw := 3 } sRun).2.1 = [] ∧
     (InitiateMergeAndWait { baseEnv with initiateMergeOk := false, getUpdateStateRaw := 3 } sRun).2.2
       = Cont.waitForMergeOrSchedule) :=
  ⟨⟨rfl, rfl, rfl⟩,
   (C9_initiate_merge_failure { baseEnv with initiateMergeOk := false, getUpdateStateRaw := 2 } sRun rfl rfl rfl).1 rfl,
   (C9_initiate_merge_failure { baseEnv with initiateMergeOk := false, getUpdateStateRaw := 3 } sRun rfl rfl rfl).2 (by decide)⟩

/-- `UpdateState.ofRaw?` decodes to `MergeFailed` only from 6. -/
theorem ofRaw_mergeFailed {n : Nat}
    (h : UpdateState.ofRaw? n = some UpdateState.MergeFailed) : n = 6 := by
  unfold UpdateState.ofRaw? at h
  split_ifs at h <;> simp_all

theorem failureCodeWrites_schedule (env : Env) (s : ActionState) :
    failureCodeWrites (ScheduleWaitForMerge env s).2 = [] := by
  unfold ScheduleWaitForMerge postTask CheckTaskScheduled
  by_cases hr : s.running = true
  · rw [if_pos hr]
    by_cases hp : env.postTaskOk = true
    · rw [if_pos hp, if_pos hp]
      rfl
    · rw [if_neg hp, if_neg hp]
      rfl
  · rw [if_neg hr]
    rfl

/-- Outside the `MergeFailed` branch, the switch writes no failure
code. -/
theorem waitForMergeDispatch_failureCodeWrites (env : Env) (s : ActionState)
    (h : env.processUpdateStateRaw ≠ 6) :
    failureCodeWrites (waitForMergeDispatch env s).2.1 = [] := by
  unfold waitForMergeDispatch
  rcases hr : UpdateState.ofRaw? env.processUpdateStateRaw with _ | u
  · rfl
  · cases u
    case MergeFailed => exact absurd (ofRaw_mergeFailed hr) h
    case Merging => exact failureCodeWrites_schedule env s
    all_goals rfl

/-- C10 counterexample environment: `MergeFailed` (6) with both fresh
failure-code reads returning `Ok` (0). -/
def envC10 : Env := { baseEnv with processUpdateStateRaw := 6 }

/-- C10 counterexample: on an entry whose fresh reads both return `Ok`,
the `MergeFailed` branch still writes the failure code (value `Ok`),
overwriting a previously recorded failure code 3 — refuting the claim
that the field is written only when the freshly read code differs from
`Ok`. -/
theorem C10_failure_code_frame_counterexample :
    envC10.readMergeFailureCode1 = 0 ∧ envC10.readMergeFailureCode2 = 0 ∧
    sRun.running = true ∧
    failureCodeWrites (WaitForMergeOrSchedule envC10 sRun).2.1 = [0] ∧
    applyMergeFailureCode (WaitForMergeOrSchedule envC10 sRun).2.1 (some 3) = some 0 := by
  decide

/-- C10 (amended): on every entry to the running `WaitForMergeOrSchedule`
handler, the guarded top-of-handler write occurs exactly when the fresh
read differs from `Ok` (0); outside the `MergeFailed` branch a fresh read
of `Ok` therefore leaves the recorder's failure-code field entirely
unchanged, while in the `MergeFailed` branch the field is unconditionally
overwritten from the second fresh read. -/
theorem C10_failure_code_frame (env : Env) (s : ActionState)
    (hrun : s.running = true) :
    (env.readMergeFailureCode1 = 0 → env.processUpdateStateRaw ≠ 6 →
      failureCodeWrites (WaitForMergeOrSchedule env s).2.1 = [] ∧
      ∀ fc, applyMergeFailureCode (WaitForMergeOrSchedule env s).2.1 fc = fc) ∧
    (env.readMergeFailureCode1 ≠ 0 →
      Effect.setMergeFailureCode env.readMergeFailureCode1 ∈
        (WaitForMergeOrSchedule env s).2.1) ∧
    (env.processUpdateStateRaw = 6 →
      ∀ fc, applyMergeFailureCode (WaitForMergeOrSchedule env s).2.1 fc =
        some env.readMergeFailureCode2) := by
  have hres : (WaitForMergeOrSchedule env s).2.1 =
      waitForMergePreEffects env ++
        (runProgressCalls env.hasDelegate env.progressCalls s).2 ++
        [Effect.setState env.processUpdateStateRaw] ++
        (waitForMergeDispatch env
          (runBeforeCancelCalls env.beforeCancelRuns
            (runProgressCalls env.hasDelegate env.progressCalls s).1)).2.1 := by
    unfold WaitForMergeOrSchedule
    rw [if_pos hrun]
  refine ⟨?_, ?_, ?_⟩
  · intro h1 h6
    have hw : failureCodeWrites (WaitForMergeOrSchedule env s).2.1 = [] := by
      rw [hres, failureCodeWrites_append, failureCodeWrites_append,
        failureCodeWrites_append, failureCodeWrites_pre, failureCodeWrites_progress,
        waitForMergeDispatch_failureCodeWrites env _ h6]
      simp only [h1, ne_eq, not_true_eq_false, if_false, List.nil_append, List.append_nil]
      rfl
    exact ⟨hw, fun fc => applyMergeFailureCode_of_no_writes hw fc⟩
  · intro h1
    rw [hres]
    unfold waitForMergePreEffects
    rw [if_pos h1]
    simp
  · intro h6 fc
    have hres6 : (WaitForMergeOrSchedule env s).2.1 =
        (waitForMergePreEffects env ++
          (runProgressCalls env.hasDelegate env.progressCalls s).2 ++
          [Effect.setState env.processUpdateStateRaw]) ++
          [Effect.setMergeFailureCode env.readMergeFailureCode2,
           Effect.completeAction ErrorCode.kDeviceCorrupted] := by
      unfold WaitForMergeOrSchedule
      rw [if_pos hrun]
      dsimp only
      unfold waitForMergeDispatch
      rw [h6]
      rfl
    rw [hres6, applyMergeFailureCode_append]
    rfl

/-- Witness for C10 (amended): a `Merging` entry with both reads `Ok`
leaves a previously recorded code 9 untouched. -/
theorem C10_failure_code_frame_witness :
    (sRun.running = true ∧ baseEnv.readMergeFailureCode1 = 0 ∧
     baseEnv.processUpdateStateRaw ≠ 6) ∧
    (failureCodeWrites (WaitForMergeOrSchedule baseEnv sRun).2.1 = [] ∧
     applyMergeFailureCode (WaitForMergeOrSchedule baseEnv sRun).2.1 (some 9) = some 9) :=
  ⟨⟨rfl, rfl, by decide⟩,
   ((C10_failure_code_frame baseEnv sRun rfl).1 rfl (by decide)).1,
   ((C10_failure_code_frame baseEnv sRun rfl).1 rfl (by decide)).2 (some 9)⟩

end CleanupPreviousUpdate
